import Mathlib

/-!
Verification of the `downloader` Go package (concurrent bulk file downloader).

The definitions below are a shallow embedding of the source file of the
package: pure helpers (`getFileSize`, `prettySize`, `min`) are translated
directly; the stateful transfer loop (`startDownload` / `continueDownload`)
becomes a recursive function over the sequence of read outcomes delivered by
the response body; the per-URL pipeline (`downloadFile`) becomes a pure
function from an abstract description of the environment (request/transport
failures, response status and headers, local file stat, file-system failures,
cancellation signal) to the produced `DownloadResult` together with a record
of the file activity it performed; the orchestrator (`Download` + `worker`)
becomes a function of the completion order, an arbitrary permutation of the
job indices, which is the only observable nondeterminism when no cancellation
occurs. Go `int64` values are modelled as `Int`; the `float64` progress
arithmetic of `updateProgress` is modelled over `ℚ` (division and
multiplication by constants are exact there; clamping and monotonicity are
unaffected by rounding since rounding is monotone).
-/

namespace Downloader

/-- Outcome of one `resp.Body.Read(buffer)` call: a chunk of bytes (at most
`bufferSize` of them, the buffer length at line 213/252), end of stream, or a
read error. -/
inductive ReadResult where
  | chunk (data : List Nat)
  | eof
  | err
  deriving DecidableEq

/-- How a transfer loop terminated (lines 214-236 / 253-275). -/
inductive TransferResult where
  | success
  | cancelled
  | readErr
  | writeErr
  deriving DecidableEq

/-- Observable effects of one run of the transfer loop: the chunks written to
the file in order, the total added to `download.downloadedSize`, the number of
`updateProgress` calls, and how the loop ended. -/
structure TransferOut where
  written : List (List Nat)
  bytes : Nat
  progress : Nat
  result : TransferResult
  deriving DecidableEq

/-- The fixed read-buffer size: `buffer := make([]byte, 1024)` (line 213 and
line 252). -/
def bufferSize : Nat := 1024

/-- Total number of bytes in a list of chunks. -/
def bytesOf (chunks : List (List Nat)) : Nat := (chunks.map List.length).sum

/-- Embedding of the shared loop body of `startDownload` (lines 214-236) and
`continueDownload` (lines 253-275).  Iteration `i` first checks the
cancellation signal (`select case <-ctx.Done()`); otherwise it performs the
next read: end of stream (`io.EOF`) returns success, a read error aborts, and
a chunk is written (a write failure at iteration `i` is modelled by
`wErr i = true`, aborting before the counter update), then the counter is
incremented by the chunk length and the progress callback runs. -/
def transferLoop (cancel wErr : Nat → Bool) : Nat → List ReadResult → TransferOut
  | i, [] =>
    if cancel i then ⟨[], 0, 0, .cancelled⟩ else ⟨[], 0, 0, .success⟩
  | i, .eof :: _ =>
    if cancel i then ⟨[], 0, 0, .cancelled⟩ else ⟨[], 0, 0, .success⟩
  | i, .err :: _ =>
    if cancel i then ⟨[], 0, 0, .cancelled⟩ else ⟨[], 0, 0, .readErr⟩
  | i, .chunk data :: rest =>
    if cancel i then ⟨[], 0, 0, .cancelled⟩
    else if wErr i then ⟨[], 0, 0, .writeErr⟩
    else
      let o := transferLoop cancel wErr (i + 1) rest
      ⟨data :: o.written, data.length + o.bytes, 1 + o.progress, o.result⟩

/-- Decimal digit test, as used by `strconv.ParseInt` in base 10. -/
def isDecDigit (c : Char) : Bool := '0' ≤ c && c ≤ '9'

/-- Value of a nonempty all-digit string, `none` otherwise. -/
def digitsToNat (cs : List Char) : Option Nat :=
  if cs.isEmpty then none
  else if cs.all isDecDigit then
    some (cs.foldl (fun a c => a * 10 + (c.toNat - 48)) 0)
  else none

/-- Embedding of `strconv.ParseInt(s, 10, 64)`: optional sign, then a
nonempty run of decimal digits (base 10 admits no underscores or prefixes),
with the value required to fit in a signed 64-bit integer; any violation is an
error, modelled as `none` (`ParseInt` also returns a clamped value with
`ErrRange` on overflow, but the caller only checks `err != nil`). -/
def goParseInt64 (s : String) : Option Int :=
  match s.toList with
  | [] => none
  | c :: rest =>
    let signed : Bool × List Char :=
      if c = '-' then (true, rest)
      else if c = '+' then (false, rest)
      else (false, c :: rest)
    match digitsToNat signed.2 with
    | none => none
    | some n =>
      if signed.1 then
        if n ≤ 9223372036854775808 then some (-(n : Int)) else none
      else
        if n ≤ 9223372036854775807 then some (n : Int) else none

/-- Embedding of `getFileSize` (lines 278-290): the `Content-Length` header
value (`""` when the header is absent, which is what `Header.Get` returns) is
parsed with `strconv.ParseInt(s, 10, 64)`; an absent header or a parse error
yields `0`, otherwise the parsed value is returned unchanged. -/
def getFileSize (contentLength : String) : Int :=
  if contentLength = "" then 0
  else
    match goParseInt64 contentLength with
    | none => 0
    | some size => size

/-- The suffix table of `prettySize` (line 332). -/
def suffixes : List String := ["B", "KB", "MB", "GB", "TB", "PB", "EB", "ZB", "YB"]

/-- The loop of `prettySize` (lines 334-338): `for size > 1024 && i < len(suffixes)-1
\x7b size /= 1024; i++ \x7d`.  The loop runs at most 8 times because `i`
starts at 0, increases by one per iteration and is bounded by `i < 8`, so a
fuel of 8 makes the recursion structural without changing the semantics. -/
def prettyLoop (fuel : Nat) (size : Int) (i : Nat) : Int × Nat :=
  match fuel with
  | 0 => (size, i)
  | fuel + 1 =>
    if 1024 < size ∧ i < 8 then prettyLoop fuel (size / 1024) (i + 1)
    else (size, i)

/-- Embedding of `prettySize` (lines 331-341): repeatedly divide by 1024
while the value strictly exceeds 1024, then format as `"%d %s"` with the
selected suffix. -/
def prettySize (size : Int) : String :=
  let p := prettyLoop 8 size 0
  toString p.1 ++ " " ++ (suffixes.getD p.2 "")

/-- Embedding of the package-local `min` helper (lines 343-348), defined on
`float64` in the source; the comparison-and-select structure is identical over
`ℚ`. -/
def min (a b : ℚ) : ℚ := if a < b then a else b

/-- What one `updateProgress` call renders for its download (lines 304-315),
cursor movement and bar layout elided: either the raw pretty-printed byte
count with an unknown-size note (taken when `totalSize <= 0`), or a progress
bar whose percentage is `downloadedSize / totalSize * 100` clamped by the
package `min` to 100. -/
inductive Rendered where
  | unknownSize (downloaded : String)
  | bar (percent : ℚ)

/-- Embedding of the rendering decision of `updateProgress` (lines 292-317). -/
def updateProgress (downloadedSize totalSize : Int) : Rendered :=
  if totalSize ≤ 0 then .unknownSize (prettySize downloadedSize)
  else .bar (Downloader.min ((downloadedSize : ℚ) / (totalSize : ℚ) * 100) 100)

/-- How the destination file is opened: `os.Create` (line 205,
create-truncate) or `os.OpenFile(..., O_APPEND|O_WRONLY, 0644)` (line 240). -/
inductive FileMode where
  | createTruncate
  | append
  deriving DecidableEq

/-- Errors a transfer can produce, in the order they appear in
`startDownload` / `continueDownload`: the open/create failure, the
cancellation error (line 218/257), a body read error, a file write error. -/
inductive TransferError where
  | openFile
  | cancelled
  | readFail
  | writeFail
  deriving DecidableEq

/-- Error taxonomy of the per-URL pipeline `downloadFile` (lines 114-202). -/
inductive DlError where
  | requestConstruction
  | network
  | nonSuccessStatus (code : Nat)
  | zeroSize
  | transfer (e : TransferError)
  deriving DecidableEq

/-- Abstract description of everything the environment decides for one URL:
whether `http.NewRequestWithContext` fails (line 119), whether `client.Do`
fails (line 138), the response status code and `Content-Length` header value,
the result of `os.Stat` on the output path (line 163; `none` models a stat
error, `some n` a local file of size `n`), whether opening the destination
file fails, the cancellation signal per loop iteration, write failures per
loop iteration, and the sequence of body read outcomes. -/
structure PipelineInput where
  reqError : Bool
  netError : Bool
  status : Nat
  contentLength : String
  localStat : Option Int
  openError : Bool
  cancel : Nat → Bool
  writeFailAt : Nat → Bool
  bodyReads : List ReadResult

/-- Record of a transfer the pipeline performed: the open mode, the
`downloadedSize` the `Download` state started from (0 for a fresh or restarted
transfer, the local size for a continued one), the `totalSize` stored in the
`Download` state (line 161), and the loop effects. -/
structure TransferRecord where
  mode : FileMode
  startOffset : Int
  totalSize : Int
  out : TransferOut
  deriving DecidableEq

/-- Result of the pipeline for one URL: the recorded error, if any, and the
file activity, if any (`none` means no file was created, opened or written). -/
structure PipelineOutput where
  err : Option DlError
  transfer : Option TransferRecord
  deriving DecidableEq

/-- Embedding of `startDownload` (lines 204-237) and `continueDownload`
(lines 239-276), which differ only in the open mode and the starting offset:
a failed open is returned as-is (a file-system error); otherwise the transfer
loop runs and its terminal state is mapped to the returned error, the opened
file staying in place with whatever chunks were written. -/
def runTransfer (mode : FileMode) (start size : Int) (inp : PipelineInput) :
    PipelineOutput :=
  if inp.openError then ⟨some (.transfer .openFile), none⟩
  else
    let o := transferLoop inp.cancel inp.writeFailAt 0 inp.bodyReads
    let e : Option DlError :=
      match o.result with
      | .success => none
      | .cancelled => some (.transfer .cancelled)
      | .readErr => some (.transfer .readFail)
      | .writeErr => some (.transfer .writeFail)
    ⟨e, some ⟨mode, start, size, o⟩⟩

/-- Embedding of `downloadFile` (lines 114-202): request construction, then
the request itself, may fail; a status code other than `http.StatusOK` (200)
is rejected; a declared size of 0 (which is also what an absent or unparsable
`Content-Length` produces) is rejected; otherwise the local file is stat-ed
and the transfer is planned: no local file starts a fresh create-truncate
transfer from byte 0, a local size above the remote size or equal to 0
restarts the same way, a local size equal to the remote size returns success
with no transfer, and otherwise the transfer continues in append mode with
`downloadedSize` preset to the local size (line 194). -/
def downloadFile (inp : PipelineInput) : PipelineOutput :=
  if inp.reqError then ⟨some .requestConstruction, none⟩
  else if inp.netError then ⟨some .network, none⟩
  else if inp.status ≠ 200 then ⟨some (.nonSuccessStatus inp.status), none⟩
  else
    let size := getFileSize inp.contentLength
    if size = 0 then ⟨some .zeroSize, none⟩
    else
      match inp.localStat with
      | none => runTransfer .createTruncate 0 size inp
      | some localSize =>
        if size < localSize ∨ localSize = 0 then
          runTransfer .createTruncate 0 size inp
        else if localSize = size then ⟨none, none⟩
        else runTransfer .append localSize size inp

/-- Embedding of the `DownloadResult` struct (lines 48-52); the `Filename`
field is elided (no claim concerns it). -/
structure DownloadResult where
  url : String
  err : Option DlError
  deriving DecidableEq

/-- Embedding of `Download` + `worker` (lines 71-113) when no cancellation
occurs: every URL is enqueued (the enqueue loop only drops URLs on
cancellation), the channel delivers each job to exactly one worker, each
worker appends exactly one result per job under the mutex, and `wg.Wait()`
returns only after all workers are done.  The only nondeterminism is the
completion order, modelled as `order`, a permutation of the job indices; the
network environment of each URL is `env`. -/
def Download (urls : List String) (env : String → PipelineInput)
    (order : List Nat) : List DownloadResult :=
  order.map fun i => ⟨urls.getD i "", (downloadFile (env (urls.getD i ""))).err⟩

/-- The package-level cap (line 19). -/
def MaxSimultaneousDownloads : Int := 10

/-- Embedding of the worker-count clamp of `NewDownloader` (lines 54-59). -/
def effectiveWorkers (numWorkers : Int) : Int :=
  if numWorkers ≤ 0 then 1
  else if MaxSimultaneousDownloads < numWorkers then MaxSimultaneousDownloads
  else numWorkers

/-- A benign concrete environment used by the witnesses: request and
transport succeed, status 200, declared size 10, no local file, no
file-system failures, no cancellation, a body of one 2-byte chunk then EOF. -/
def sampleInput : PipelineInput :=
  { reqError := false
    netError := false
    status := 200
    contentLength := "10"
    localStat := none
    openError := false
    cancel := fun _ => false
    writeFailAt := fun _ => false
    bodyReads := [ReadResult.chunk [7, 7], ReadResult.eof] }


/-- One full uninterrupted run of the transfer loop writes every chunk in
order, counts every byte, reports progress once per chunk and ends in
success at end of stream. -/
theorem transferLoop_success (l : List (List Nat)) : ∀ i,
    transferLoop (fun _ => false) (fun _ => false) i
      (l.map ReadResult.chunk ++ [ReadResult.eof]) =
    ⟨l, bytesOf l, l.length, TransferResult.success⟩ := by
  induction l with
  | nil => intro i; simp [transferLoop, bytesOf]
  | cons a t ih =>
    intro i
    simp [transferLoop, bytesOf, ih (i + 1)]
    omega

/-- A read error after the chunks aborts the loop with a read error, with all
previously delivered chunks already written. -/
theorem transferLoop_readErr (l : List (List Nat)) : ∀ i,
    transferLoop (fun _ => false) (fun _ => false) i
      (l.map ReadResult.chunk ++ [ReadResult.err]) =
    ⟨l, bytesOf l, l.length, TransferResult.readErr⟩ := by
  induction l with
  | nil => intro i; simp [transferLoop, bytesOf]
  | cons a t ih =>
    intro i
    simp [transferLoop, bytesOf, ih (i + 1)]
    omega

/-- If the cancellation signal becomes set from iteration `i + k` on, the
loop stops with a cancellation result right at the check before the read of
iteration `k`, the first `k` chunks staying written. -/
theorem transferLoop_cancelled (l : List (List Nat)) : ∀ k i, k ≤ l.length →
    transferLoop (fun j => decide (i + k ≤ j)) (fun _ => false) i
      (l.map ReadResult.chunk ++ [ReadResult.eof]) =
    ⟨l.take k, bytesOf (l.take k), k, TransferResult.cancelled⟩ := by
  induction l with
  | nil =>
    intro k i h
    have hk : k = 0 := Nat.le_zero.mp h
    subst hk
    simp [transferLoop, bytesOf]
  | cons a t ih =>
    intro k i h
    match k with
    | 0 => simp [transferLoop, bytesOf]
    | k' + 1 =>
      have hc : ¬ (i + (k' + 1) ≤ i) := by omega
      have hfe : (fun j => decide (i + (k' + 1) ≤ j)) =
          (fun j => decide ((i + 1) + k' ≤ j)) := by
        funext j
        have h2 : i + (k' + 1) = (i + 1) + k' := by omega
        rw [h2]
      simp only [List.map_cons, List.cons_append, transferLoop, decide_eq_true_eq,
        if_neg hc, List.append_eq]
      rw [hfe, ih k' (i + 1) (by simpa using h)]
      simp [bytesOf]
      omega

/-- If writes start failing from iteration `i + k` on (with `k` below the
chunk count), the loop aborts with a write error at iteration `k`, the first
`k` chunks staying written and the failing chunk not counted. -/
theorem transferLoop_writeErr (l : List (List Nat)) : ∀ k i, k < l.length →
    transferLoop (fun _ => false) (fun j => decide (i + k ≤ j)) i
      (l.map ReadResult.chunk ++ [ReadResult.eof]) =
    ⟨l.take k, bytesOf (l.take k), k, TransferResult.writeErr⟩ := by
  induction l with
  | nil => intro k i h; simp at h
  | cons a t ih =>
    intro k i h
    match k with
    | 0 => simp [transferLoop, bytesOf]
    | k' + 1 =>
      have hc : ¬ (i + (k' + 1) ≤ i) := by omega
      have hfe : (fun j => decide (i + (k' + 1) ≤ j)) =
          (fun j => decide ((i + 1) + k' ≤ j)) := by
        funext j
        have h2 : i + (k' + 1) = (i + 1) + k' := by omega
        rw [h2]
      simp only [List.map_cons, List.cons_append, transferLoop, Bool.false_eq_true,
        if_false, decide_eq_true_eq, if_neg hc, List.append_eq]
      rw [hfe, ih k' (i + 1) (by simpa using h)]
      simp [bytesOf]
      omega

/-- Mapping index lookup over the index range of a list reproduces the
list. -/
theorem range_map_getD (l : List String) :
    (List.range l.length).map (fun i => l.getD i "") = l := by
  induction l with
  | nil => simp
  | cons a t ih =>
    rw [List.length_cons, List.range_succ_eq_map, List.map_cons, List.map_map]
    have h1 : ((fun i => (a :: t).getD i "") ∘ Nat.succ) = fun i => t.getD i "" := by
      funext i
      simp [List.getD_cons_succ]
    rw [h1, ih]
    simp

/-- A transfer that runs (its destination opened successfully) reports either
no error or a transfer-stage error; it can never report a status error. -/
theorem runTransfer_err_shape (mode : FileMode) (start size : Int)
    (inp : PipelineInput) :
    (runTransfer mode start size inp).err = none ∨
    ∃ e, (runTransfer mode start size inp).err = some (DlError.transfer e) := by
  unfold runTransfer
  split_ifs with h
  · exact Or.inr ⟨TransferError.openFile, rfl⟩
  · cases hro : (transferLoop inp.cancel inp.writeFailAt 0 inp.bodyReads).result
    · left
      simp [hro]
    · right
      exact ⟨TransferError.cancelled, by simp [hro]⟩
    · right
      exact ⟨TransferError.readFail, by simp [hro]⟩
    · right
      exact ⟨TransferError.writeFail, by simp [hro]⟩

/-- With a 200 status the pipeline's recorded error can only be absent, a
request or network failure, the zero-size rejection, or a transfer-stage
error. -/
theorem downloadFile_ok_err_shape (inp : PipelineInput) (hstatus : inp.status = 200) :
    (downloadFile inp).err = none ∨
    (downloadFile inp).err = some DlError.requestConstruction ∨
    (downloadFile inp).err = some DlError.network ∨
    (downloadFile inp).err = some DlError.zeroSize ∨
    ∃ e, (downloadFile inp).err = some (DlError.transfer e) := by
  by_cases h1 : inp.reqError
  · right; left
    simp [downloadFile, h1]
  by_cases h2 : inp.netError
  · right; right; left
    simp [downloadFile, h1, h2]
  by_cases h3 : getFileSize inp.contentLength = 0
  · right; right; right; left
    simp [downloadFile, h1, h2, hstatus, h3]
  have hdf : downloadFile inp =
      match inp.localStat with
      | none => runTransfer .createTruncate 0 (getFileSize inp.contentLength) inp
      | some L =>
        if getFileSize inp.contentLength < L ∨ L = 0 then
          runTransfer .createTruncate 0 (getFileSize inp.contentLength) inp
        else if L = getFileSize inp.contentLength then ⟨none, none⟩
        else runTransfer .append L (getFileSize inp.contentLength) inp := by
    simp [downloadFile, h1, h2, hstatus, h3]
  rw [hdf]
  rcases inp.localStat with _ | L <;> dsimp only
  · rcases runTransfer_err_shape .createTruncate 0 (getFileSize inp.contentLength) inp
      with h | ⟨e, h⟩
    · left; exact h
    · right; right; right; right; exact ⟨e, h⟩
  · split_ifs with hc1 hc2
    · rcases runTransfer_err_shape .createTruncate 0 (getFileSize inp.contentLength) inp
        with h | ⟨e, h⟩
      · left; exact h
      · right; right; right; right; exact ⟨e, h⟩
    · left; rfl
    · rcases runTransfer_err_shape .append L (getFileSize inp.contentLength) inp
        with h | ⟨e, h⟩
      · left; exact h
      · right; right; right; right; exact ⟨e, h⟩

/-- A pipeline run whose response status is 200 never records a
`nonSuccessStatus` error. -/
theorem downloadFile_err_in_ok_path (inp : PipelineInput)
    (hstatus : inp.status = 200) :
    ∀ c, (downloadFile inp).err ≠ some (DlError.nonSuccessStatus c) := by
  intro c hc
  rcases downloadFile_ok_err_shape inp hstatus with h | h | h | h | ⟨e, h⟩ <;>
    rw [h] at hc <;> simp at hc

/-- Whatever transfer the pipeline performs uses the probed size as the
stored total size, and that size is nonzero. -/
theorem runTransfer_transfer_size (mode : FileMode) (start size : Int)
    (inp : PipelineInput) (t : TransferRecord)
    (h : (runTransfer mode start size inp).transfer = some t) :
    t.totalSize = size := by
  unfold runTransfer at h
  split_ifs at h with ho
  all_goals simp at h
  subst h
  rfl

/-- A negative probed size can only come from a header that parses to a
negative integer. -/
theorem getFileSize_neg (s : String) (h : getFileSize s < 0) :
    ∃ v, goParseInt64 s = some v ∧ v < 0 := by
  unfold getFileSize at h
  split_ifs at h with hs
  · omega
  · rcases hp : goParseInt64 s with _ | v
    · simp only [hp] at h
      omega
    · simp only [hp] at h
      exact ⟨v, rfl, h⟩

/-- Any transfer the pipeline performs stores the probed size as its total
size, and the pipeline only transfers when that size is nonzero. -/
theorem downloadFile_transfer_size (inp : PipelineInput) (t : TransferRecord)
    (h : (downloadFile inp).transfer = some t) :
    t.totalSize = getFileSize inp.contentLength ∧
    getFileSize inp.contentLength ≠ 0 := by
  by_cases h1 : inp.reqError
  · simp [downloadFile, h1] at h
  by_cases h2 : inp.netError
  · simp [downloadFile, h1, h2] at h
  by_cases hst : inp.status = 200
  case neg => simp [downloadFile, h1, h2, hst] at h
  by_cases h3 : getFileSize inp.contentLength = 0
  · simp [downloadFile, h1, h2, hst, h3] at h
  refine ⟨?_, h3⟩
  have hdf : downloadFile inp =
      match inp.localStat with
      | none => runTransfer .createTruncate 0 (getFileSize inp.contentLength) inp
      | some L =>
        if getFileSize inp.contentLength < L ∨ L = 0 then
          runTransfer .createTruncate 0 (getFileSize inp.contentLength) inp
        else if L = getFileSize inp.contentLength then ⟨none, none⟩
        else runTransfer .append L (getFileSize inp.contentLength) inp := by
    simp [downloadFile, h1, h2, hst, h3]
  rw [hdf] at h
  rcases hls : inp.localStat with _ | L <;> rw [hls] at h <;> dsimp only at h
  · exact runTransfer_transfer_size _ _ _ _ _ h
  · split_ifs at h with hc1 hc2 <;>
      first
        | exact runTransfer_transfer_size _ _ _ _ _ h
        | exact absurd h (by simp)


/-- C1: for every URL whose response declares a remote size `S > 0`, the
resume decision of `downloadFile` is: stat error means a fresh
create-truncate transfer from byte 0; a local size above `S` or equal to 0
means a create-truncate restart from byte 0; a local size equal to `S` means
already complete, with no error and no file touched; a local size strictly
between 0 and `S` means a resume in append mode starting at offset equal to
the local size. -/
theorem resume_plan_correct (inp : PipelineInput) (S : Int) (hS : 0 < S)
    (hreq : inp.reqError = false) (hnet : inp.netError = false)
    (hstatus : inp.status = 200) (hsize : getFileSize inp.contentLength = S)
    (hopen : inp.openError = false) :
    (inp.localStat = none →
      (downloadFile inp).transfer =
        some ⟨FileMode.createTruncate, 0, S,
          transferLoop inp.cancel inp.writeFailAt 0 inp.bodyReads⟩) ∧
    (∀ L, inp.localStat = some L → (S < L ∨ L = 0) →
      (downloadFile inp).transfer =
        some ⟨FileMode.createTruncate, 0, S,
          transferLoop inp.cancel inp.writeFailAt 0 inp.bodyReads⟩) ∧
    (∀ L, inp.localStat = some L → L = S →
      downloadFile inp = ⟨none, none⟩) ∧
    (∀ L, inp.localStat = some L → 0 < L → L < S →
      (downloadFile inp).transfer =
        some ⟨FileMode.append, L, S,
          transferLoop inp.cancel inp.writeFailAt 0 inp.bodyReads⟩) := by
  have hS0 : ¬ (S = 0) := by omega
  refine ⟨?_, ?_, ?_, ?_⟩
  · intro hstat
    simp [downloadFile, runTransfer, hreq, hnet, hstatus, hsize, hstat, hopen, hS0]
  · intro L hstat hcond
    simp [downloadFile, runTransfer, hreq, hnet, hstatus, hsize, hstat, hopen, hS0,
      if_pos hcond]
  · intro L hstat hLS
    have hc1 : ¬ (S < L ∨ L = 0) := by omega
    simp [downloadFile, runTransfer, hreq, hnet, hstatus, hsize, hstat, hopen, hS0,
      hc1, hLS]
  · intro L hstat hL0 hLS
    have hc1 : ¬ (S < L ∨ L = 0) := by omega
    have hc2 : ¬ (L = S) := by omega
    simp [downloadFile, runTransfer, hreq, hnet, hstatus, hsize, hstat, hopen, hS0,
      hc1, hc2]

/-- Witness for C1: with remote size 10 and a local file of size 4, the
pipeline performs an append-mode transfer starting at offset 4. -/
theorem resume_plan_correct_witness :
    (downloadFile { sampleInput with localStat := some 4 }).transfer =
      some ⟨FileMode.append, 4, 10,
        transferLoop sampleInput.cancel sampleInput.writeFailAt 0 sampleInput.bodyReads⟩ :=
  (resume_plan_correct { sampleInput with localStat := some 4 } 10 (by decide)
    rfl rfl rfl (by decide) rfl).2.2.2 4 rfl (by decide) (by decide)

/-- C2: the transfer loop reads the body in buffer-sized chunks; an
uninterrupted run writes every chunk in order, increments the counter by each
chunk length and calls the progress callback once per chunk, ending in
success exactly at end of stream; the cancellation signal is checked before
each read and, once set, the loop stops with a cancellation error leaving the
already-written chunks in place; a read error leaves the written chunks in
place and aborts with an error, as does a write failure. -/
theorem transfer_loop_spec (l : List (List Nat)) (k : Nat)
    (hchunks : ∀ c ∈ l, c.length ≤ bufferSize) :
    (transferLoop (fun _ => false) (fun _ => false) 0
        (l.map ReadResult.chunk ++ [ReadResult.eof]) =
      ⟨l, bytesOf l, l.length, TransferResult.success⟩) ∧
    (k ≤ l.length →
      transferLoop (fun j => decide (k ≤ j)) (fun _ => false) 0
          (l.map ReadResult.chunk ++ [ReadResult.eof]) =
        ⟨l.take k, bytesOf (l.take k), k, TransferResult.cancelled⟩) ∧
    (transferLoop (fun _ => false) (fun _ => false) 0
        (l.map ReadResult.chunk ++ [ReadResult.err]) =
      ⟨l, bytesOf l, l.length, TransferResult.readErr⟩) ∧
    (k < l.length →
      transferLoop (fun _ => false) (fun j => decide (k ≤ j)) 0
          (l.map ReadResult.chunk ++ [ReadResult.eof]) =
        ⟨l.take k, bytesOf (l.take k), k, TransferResult.writeErr⟩) := by
  refine ⟨transferLoop_success l 0, ?_, transferLoop_readErr l 0, ?_⟩
  · intro hk
    have h := transferLoop_cancelled l k 0 hk
    simpa using h
  · intro hk
    have h := transferLoop_writeErr l k 0 hk
    simpa using h

/-- Witness for C2: a two-chunk body cancelled from iteration 1 on stops with
a cancellation error after writing exactly the first chunk. -/
theorem transfer_loop_spec_witness :
    transferLoop (fun j => decide (1 ≤ j)) (fun _ => false) 0
        ([[1, 2], [3]].map ReadResult.chunk ++ [ReadResult.eof]) =
      ⟨[[1, 2]], 2, 1, TransferResult.cancelled⟩ :=
  (transfer_loop_spec [[1, 2], [3]] 1 (by decide)).2.1 (by decide)

/-- C3: with no cancellation, whatever the completion order of the workers,
the result collection returned by `Download` holds exactly one result per
input URL, with no duplicates and no omissions. -/
theorem download_results_complete (urls : List String)
    (env : String → PipelineInput) (order : List Nat)
    (h : order.Perm (List.range urls.length)) :
    ((Download urls env order).map DownloadResult.url).Perm urls ∧
    (Download urls env order).length = urls.length := by
  have hmap : (Download urls env order).map DownloadResult.url =
      order.map (fun i => urls.getD i "") := by
    unfold Download
    rw [List.map_map]
    rfl
  constructor
  · rw [hmap]
    have hp := h.map (fun i => urls.getD i "")
    rw [range_map_getD] at hp
    exact hp
  · unfold Download
    rw [List.length_map, h.length_eq, List.length_range]

/-- Witness for C3: three URLs completed in the order job 1, job 2, job 0
still yield one result per URL. -/
theorem download_results_complete_witness :
    (((Download ["a", "b", "c"] (fun _ => sampleInput) [1, 2, 0]).map
        DownloadResult.url).Perm ["a", "b", "c"]) ∧
    (Download ["a", "b", "c"] (fun _ => sampleInput) [1, 2, 0]).length = 3 :=
  download_results_complete ["a", "b", "c"] (fun _ => sampleInput) [1, 2, 0]
    (by decide)

/-- C4: a response whose declared size parses to exactly 0 is rejected with
the zero-size error and no transfer is performed, never treated as a valid
empty-file success. -/
theorem zero_size_rejected (inp : PipelineInput)
    (hreq : inp.reqError = false) (hnet : inp.netError = false)
    (hstatus : inp.status = 200)
    (hparse : goParseInt64 inp.contentLength = some 0) :
    downloadFile inp = ⟨some DlError.zeroSize, none⟩ := by
  have hsz : getFileSize inp.contentLength = 0 := by
    unfold getFileSize
    split_ifs with hs
    · rfl
    · rw [hparse]
  simp [downloadFile, hreq, hnet, hstatus, hsz]

/-- Witness for C4: a `Content-Length` of `"0"` yields the zero-size error
and no file activity. -/
theorem zero_size_rejected_witness :
    downloadFile { sampleInput with contentLength := "0" } =
      ⟨some DlError.zeroSize, none⟩ :=
  zero_size_rejected { sampleInput with contentLength := "0" } rfl rfl rfl rfl

/-- Counterexample to C5 as stated: status 204 is a 2xx success code, yet the
pipeline records a `nonSuccessStatus` error for it, because the source
compares against exactly `http.StatusOK` (200), not the 2xx range. -/
theorem non2xx_claim_counterexample :
    (200 ≤ (204 : Nat) ∧ (204 : Nat) < 300) ∧
    (downloadFile { sampleInput with status := 204 }).err =
      some (DlError.nonSuccessStatus 204) := by
  constructor
  · decide
  · rfl

/-- C5 (amended): a `nonSuccessStatus` error is recorded in a URL's result if
and only if the response status code differs from 200 exactly; any non-200
code, 2xx codes included, is rejected, and the recorded code is the response
status. -/
theorem non200_status_rejected (inp : PipelineInput)
    (hreq : inp.reqError = false) (hnet : inp.netError = false) :
    ((∃ c, (downloadFile inp).err = some (DlError.nonSuccessStatus c)) ↔
      inp.status ≠ 200) ∧
    (inp.status ≠ 200 →
      (downloadFile inp).err = some (DlError.nonSuccessStatus inp.status)) := by
  have hne : inp.status ≠ 200 →
      (downloadFile inp).err = some (DlError.nonSuccessStatus inp.status) := by
    intro h
    simp [downloadFile, hreq, hnet, h]
  refine ⟨⟨?_, fun h => ⟨inp.status, hne h⟩⟩, hne⟩
  rintro ⟨c, hc⟩
  intro h200
  exact downloadFile_err_in_ok_path inp h200 c hc

/-- Witness for C5: a 404 response records `nonSuccessStatus 404`. -/
theorem non200_status_rejected_witness :
    (downloadFile { sampleInput with status := 404 }).err =
      some (DlError.nonSuccessStatus 404) :=
  (non200_status_rejected { sampleInput with status := 404 } rfl rfl).2 (by decide)

/-- Counterexample to C6 as stated: a header holding the negative integer
`-5` does not yield 0; `strconv.ParseInt` parses it successfully and
`getFileSize` returns it unchanged. -/
theorem getFileSize_negative_counterexample :
    getFileSize "-5" = -5 ∧ getFileSize "-5" ≠ 0 := by decide

/-- C6 (amended): the size probe returns 0 when the header is absent or its
value fails to parse as a base-10 64-bit integer; when parsing succeeds the
parsed value is returned unchanged, including negative values. -/
theorem getFileSize_spec (s : String) :
    (goParseInt64 s = none → getFileSize s = 0) ∧
    (∀ v, goParseInt64 s = some v → getFileSize s = v) := by
  constructor
  · intro h
    unfold getFileSize
    split_ifs with hs
    · rfl
    · rw [h]
  · intro v h
    unfold getFileSize
    split_ifs with hs
    · subst hs
      have hnone : goParseInt64 "" = none := rfl
      rw [hnone] at h
      exact Option.noConfusion h
    · rw [h]

/-- Witness for C6: the header value `"-7"` parses and is returned as -7. -/
theorem getFileSize_spec_witness : getFileSize "-7" = -7 :=
  (getFileSize_spec "-7").2 (-7) rfl

/-- Counterexample to C7 as stated: `prettySize 1024` is `"1024 B"`, not
`"1 KB"`, because the loop guard is the strict `size > 1024`. -/
theorem prettySize_boundary_counterexample :
    prettySize 1024 = "1024 B" ∧ prettySize 1024 ≠ "1 KB" := by decide

/-- C7 (amended): `prettySize` maps 0 to `"0 B"`, 1536 to `"1 KB"` (integer
truncation, no rounding), and, the loop guard being strict, leaves the exact
boundaries 1024 at `"1024 B"` and 1048576 at `"1024 KB"`. -/
theorem prettySize_values :
    prettySize 0 = "0 B" ∧ prettySize 1024 = "1024 B" ∧
    prettySize 1536 = "1 KB" ∧ prettySize 1048576 = "1024 KB" := by decide

/-- C8: within one transfer (fixed positive total size), the rendered
progress percentage is monotonically non-decreasing in the downloaded size
and never exceeds 100, even when the downloaded size exceeds the total. -/
theorem progress_monotone_clamped (totalSize d d' : Int)
    (htotal : 0 < totalSize) (hdd : d ≤ d') :
    ∃ p p', updateProgress d totalSize = Rendered.bar p ∧
      updateProgress d' totalSize = Rendered.bar p' ∧ p ≤ p' ∧ p' ≤ 100 := by
  have hn : ¬ (totalSize ≤ 0) := by omega
  refine ⟨Downloader.min ((d : ℚ) / (totalSize : ℚ) * 100) 100,
    Downloader.min ((d' : ℚ) / (totalSize : ℚ) * 100) 100, ?_, ?_, ?_, ?_⟩
  · unfold updateProgress
    rw [if_neg hn]
  · unfold updateProgress
    rw [if_neg hn]
  · have htQ : (0 : ℚ) < (totalSize : ℚ) := by exact_mod_cast htotal
    have hdQ : (d : ℚ) ≤ (d' : ℚ) := by exact_mod_cast hdd
    have hle : (d : ℚ) / (totalSize : ℚ) * 100 ≤ (d' : ℚ) / (totalSize : ℚ) * 100 := by
      have h2 : (d : ℚ) / (totalSize : ℚ) ≤ (d' : ℚ) / (totalSize : ℚ) :=
        (div_le_div_iff_of_pos_right htQ).mpr hdQ
      exact mul_le_mul_of_nonneg_right h2 (by norm_num)
    unfold Downloader.min
    split_ifs <;> linarith
  · unfold Downloader.min
    split_ifs with hb
    · linarith
    · linarith

/-- Witness for C8: with total size 10, the percentages at 3 and then 12
downloaded bytes are ordered and the latter is clamped at 100. -/
theorem progress_monotone_clamped_witness :
    ∃ p p', updateProgress 3 10 = Rendered.bar p ∧
      updateProgress 12 10 = Rendered.bar p' ∧ p ≤ p' ∧ p' ≤ 100 :=
  progress_monotone_clamped 10 3 12 (by decide) (by decide)

/-- C9: the effective worker count is the requested one clamped to the
interval from 1 to `MaxSimultaneousDownloads` (10): nonpositive requests
become 1, requests above 10 become 10, anything in between is unchanged. -/
theorem worker_count_clamped (numWorkers : Int) :
    (numWorkers ≤ 0 → effectiveWorkers numWorkers = 1) ∧
    (10 < numWorkers → effectiveWorkers numWorkers = 10) ∧
    (1 ≤ numWorkers → numWorkers ≤ 10 → effectiveWorkers numWorkers = numWorkers) ∧
    (1 ≤ effectiveWorkers numWorkers ∧ effectiveWorkers numWorkers ≤ 10) := by
  unfold effectiveWorkers MaxSimultaneousDownloads
  refine ⟨?_, ?_, ?_, ?_⟩ <;> intros <;> split_ifs <;> omega

/-- Witness for C9: a request for 50 workers is clamped to 10. -/
theorem worker_count_clamped_witness : effectiveWorkers 50 = 10 :=
  (worker_count_clamped 50).2.1 (by decide)

/-- C10: an absent `Content-Length` makes the size probe return 0, upon which
the pipeline records the zero-size error before any file is created or
written; any transfer the pipeline does perform whose stored total size is
nonpositive can only arise from a header parsing to a negative integer; and
the unknown-size rendering branch of `updateProgress` is taken exactly when
the total size is nonpositive. -/
theorem unknown_size_gated :
    (getFileSize "" = 0) ∧
    (∀ inp : PipelineInput, inp.reqError = false → inp.netError = false →
      inp.status = 200 → inp.contentLength = "" →
      downloadFile inp = ⟨some DlError.zeroSize, none⟩) ∧
    (∀ (inp : PipelineInput) (t : TransferRecord),
      (downloadFile inp).transfer = some t → t.totalSize ≤ 0 →
      ∃ v, goParseInt64 inp.contentLength = some v ∧ v < 0) ∧
    (∀ (downloaded totalSize : Int),
      (∃ s, updateProgress downloaded totalSize = Rendered.unknownSize s) ↔
        totalSize ≤ 0) := by
  refine ⟨rfl, ?_, ?_, ?_⟩
  · intro inp hreq hnet hst hcl
    have hsz : getFileSize inp.contentLength = 0 := by rw [hcl]; rfl
    simp [downloadFile, hreq, hnet, hst, hsz]
  · intro inp t ht hle
    obtain ⟨hts, hne⟩ := downloadFile_transfer_size inp t ht
    apply getFileSize_neg
    omega
  · intro d ts
    constructor
    · rintro ⟨s, hs⟩
      by_contra hpos
      unfold updateProgress at hs
      rw [if_neg hpos] at hs
      exact Rendered.noConfusion hs
    · intro h
      exact ⟨prettySize d, by unfold updateProgress; rw [if_pos h]⟩

/-- Witness for C10: an absent header leads straight to the zero-size error
with no file activity. -/
theorem unknown_size_gated_witness :
    downloadFile { sampleInput with contentLength := "" } =
      ⟨some DlError.zeroSize, none⟩ :=
  unknown_size_gated.2.1 { sampleInput with contentLength := "" } rfl rfl rfl rfl


end Downloader
